import Mathlib

/-!
Verification development for the pyramid-analytics-suite data-import and
insights core.

The embedding covers `src/lib/csvParser.ts` (row validation/coercion and the
sample-CSV generator) and `src/lib/aiInsights.ts` (anomaly detection,
forecasting, recommendations, summary), together with the record types
declared in the database module.

JavaScript numbers are modelled as exact rationals (ℚ): every numeric
literal and every arithmetic step in the embedded code is within the range
where IEEE doubles behave like exact arithmetic on the small decimal values
this program manipulates, and all properties below are threshold comparisons
on such values.  Fallible built-ins (`parseFloat`, `parseInt`) return
`Option`, with `none` playing the role of `NaN`; the source's `x || 0`
idiom on a parse result is `Option.getD _ 0`.
-/

/-- A loosely-typed JavaScript value as delivered by the CSV/XLSX decoding
layer: a string cell, a numeric cell, or a boolean cell.  An absent field
(`undefined`) is `none` at use sites, via `Option JVal`. -/
inductive JVal where
  | str (s : String)
  | num (q : ℚ)
  | boolean (b : Bool)
deriving DecidableEq

/-- JavaScript truthiness of a possibly-absent value: `undefined`, the empty
string, the number `0` and `false` are falsy.  (`NaN` is also falsy in JS; a
not-a-number never reaches `truthy` in this embedding because parse failures
are `Option.none` before any truthiness test.) -/
def truthy : Option JVal → Bool
  | none => false
  | some (JVal.str s) => decide (s ≠ "")
  | some (JVal.num q) => decide (q ≠ 0)
  | some (JVal.boolean b) => b

/-- Decimal string of an integer-valued rational; model of JavaScript
number-to-string conversion.  The program only ever stringifies integral
numbers through this path; non-integral values get a fraction rendering
that no verified claim inspects (JS decimal double formatting is not
modelled). -/
def jsNumToString (q : ℚ) : String :=
  if q.den = 1 then toString q.num else toString q.num ++ "/" ++ toString q.den

/-- Model of JavaScript `String(v)` conversion of a primitive value. -/
def jvalToString : JVal → String
  | JVal.str s => s
  | JVal.num q => jsNumToString q
  | JVal.boolean b => if b then "true" else "false"

/-- Model of JavaScript `String(v)` on a possibly-absent value. -/
def jvalOptToString : Option JVal → String
  | none => "undefined"
  | some v => jvalToString v

/-- Model of `new Date(s).toISOString()`.  No verified claim inspects the
normalised date text (only record counts, field defaults and date ORDER
matter, and the inputs in scope are already ISO-8601 strings, on which
chronological order is lexicographic), so the calendar renormalisation is
modelled as the identity on the date string. -/
def newDateToISOString (s : String) : String := s

/-- Numeric value of a list of decimal digit characters. -/
def digitsToNat (l : List Char) : Nat :=
  l.foldl (fun n c => n * 10 + (c.toNat - 48)) 0

/-- Model of JavaScript `parseFloat` on the characters of a string: skip
leading whitespace, optional sign, decimal digits with an optional fraction
part; `none` (NaN) when no digits are found.  Exponent notation is not
modelled (no input of this program uses it). -/
def parseFloatChars (l : List Char) : Option ℚ :=
  let l0 := l.dropWhile (fun c => c.isWhitespace)
  let sgnBody : Bool × List Char :=
    match l0 with
    | '-' :: t => (true, t)
    | '+' :: t => (false, t)
    | _ => (false, l0)
  let l1 := sgnBody.2
  let ip := l1.takeWhile (fun c => c.isDigit)
  let l2 := l1.dropWhile (fun c => c.isDigit)
  let fp : List Char :=
    match l2 with
    | '.' :: t => t.takeWhile (fun c => c.isDigit)
    | _ => []
  if ip.isEmpty && fp.isEmpty then none
  else
    let q : ℚ := mkRat (digitsToNat (ip ++ fp)) (10 ^ fp.length)
    some (if sgnBody.1 then -q else q)

/-- Model of `parseFloat(v)` on a possibly-absent loosely-typed value
(JavaScript first coerces the argument to a string; re-parsing the string
form of a finite number yields the number back). -/
def jsParseFloat : Option JVal → Option ℚ
  | none => none
  | some (JVal.str s) => parseFloatChars s.toList
  | some (JVal.num q) => some q
  | some (JVal.boolean _) => none

/-- Model of JavaScript `parseInt` (radix 10) on the characters of a
string: skip leading whitespace, optional sign, leading decimal digits;
`none` (NaN) when no digits are found. -/
def parseIntChars (l : List Char) : Option Int :=
  let l0 := l.dropWhile (fun c => c.isWhitespace)
  let sgnBody : Bool × List Char :=
    match l0 with
    | '-' :: t => (true, t)
    | '+' :: t => (false, t)
    | _ => (false, l0)
  let ip := sgnBody.2.takeWhile (fun c => c.isDigit)
  if ip.isEmpty then none
  else some (if sgnBody.1 then -(digitsToNat ip : Int) else (digitsToNat ip : Int))

/-- Truncation of a rational toward zero, as JavaScript `parseInt` performs
on the string form of a number. -/
def truncToward0 (q : ℚ) : Int :=
  if 0 ≤ q then ⌊q⌋ else ⌈q⌉

/-- Model of `parseInt(v)` on a possibly-absent loosely-typed value. -/
def jsParseInt : Option JVal → Option Int
  | none => none
  | some (JVal.str s) => parseIntChars s.toList
  | some (JVal.num q) => some (truncToward0 q)
  | some (JVal.boolean _) => none

/-- Model of `Math.round`: round half toward positive infinity. -/
def jsRound (q : ℚ) : Int := ⌊q + 1/2⌋

/-- Model of `Number.prototype.toFixed(1)`: one decimal digit, rounding the
decimal magnitude half away from zero. -/
def toFixed1 (q : ℚ) : String :=
  let m := (⌊|q| * 10 + 1/2⌋).toNat
  (if q < 0 then "-" else "") ++ toString (m / 10) ++ "." ++ toString (m % 10)

/-- One raw input row: the string-keyed mapping produced by the decoding
layer (Papa parse with a header row), in field order. -/
abbrev Row := List (String × JVal)

/-- Field access `row.key` on a raw row: `none` models `undefined`. -/
def getField (row : Row) (key : String) : Option JVal :=
  (row.find? (fun kv => kv.1 == key)).map (fun kv => kv.2)

/-! ## Record types (database module) -/

/-- `ProductionRecord` of the database module (sans the storage-assigned
`id`).  `orderId` is `null` (`none`) or a parsed number; the parsed number
is itself optional because `parseInt` can produce `NaN` (`some none`). -/
structure ProductionRecord where
  date : String
  productType : String
  quantity : ℚ
  target : ℚ
  wasteKg : ℚ
  orderId : Option (Option Int)
deriving DecidableEq

/-- `InventoryItem` of the database module (sans `id`). -/
structure InventoryItem where
  itemName : String
  stockKg : ℚ
  minStockKg : ℚ
  unit : String
  lastUpdated : String
deriving DecidableEq

/-- `SaleRecord` of the database module (sans `id`). -/
structure SaleRecord where
  date : String
  customer : String
  productType : String
  amount : ℚ
  revenue : ℚ
  delivered : Bool
deriving DecidableEq

/-- `WorkerRecord` of the database module (sans `id`). -/
structure WorkerRecord where
  date : String
  name : String
  shift : String
  tasksDone : Int
deriving DecidableEq

/-! ## csvParser.ts -/

/-- The four import kinds (`DataType` in `csvParser.ts`). -/
inductive DataType where
  | production
  | inventory
  | sales
  | workers
deriving DecidableEq

/-- Result triple of the parser (`ParsedData<T>` in `csvParser.ts`). -/
structure ParsedData (α : Type) where
  data : List α
  errors : List String
  warnings : List String
deriving DecidableEq

/-- The `delivered` coercion of the sales case:
`row.delivered === 'true' || row.delivered === true` (strict equality, so
only the exact string `"true"` or the boolean `true` qualify). -/
def deliveredOf (v : Option JVal) : Bool :=
  decide (v = some (JVal.str "true")) || decide (v = some (JVal.boolean true))

/-- The `production` arm of `parseDataByType`, for one row at 0-based
position `index`: reject when `date`, `productType` or `quantity` is falsy,
else coerce, with a non-fatal warning when quantity exceeds a positive
target.  Returns the record plus the warnings the row contributes. -/
def parseProductionRow (index : Nat) (row : Row) :
    Except String (ProductionRecord × List String) :=
  if !truthy (getField row "date") || !truthy (getField row "productType")
      || !truthy (getField row "quantity") then
    Except.error ("Row " ++ toString (index + 1) ++
      ": Missing required fields (date, productType, quantity)")
  else
    let record : ProductionRecord :=
      { date := newDateToISOString (jvalOptToString (getField row "date"))
        productType := jvalOptToString (getField row "productType")
        quantity := (jsParseFloat (getField row "quantity")).getD 0
        target := (jsParseFloat (getField row "target")).getD 0
        wasteKg := (jsParseFloat (getField row "wasteKg")).getD 0
        orderId :=
          if truthy (getField row "orderId") then
            some (jsParseInt (getField row "orderId"))
          else none }
    let ws : List String :=
      if decide (record.target < record.quantity) && decide (0 < record.target) then
        ["Row " ++ toString (index + 1) ++ ": Quantity exceeds target"]
      else []
    Except.ok (record, ws)

/-- The `inventory` arm of `parseDataByType` for one row; `now` is the
`new Date().toISOString()` timestamp observed at parse time, passed
explicitly to keep the function pure. -/
def parseInventoryRow (now : String) (index : Nat) (row : Row) :
    Except String (InventoryItem × List String) :=
  if !truthy (getField row "itemName") || !truthy (getField row "stockKg") then
    Except.error ("Row " ++ toString (index + 1) ++
      ": Missing required fields (itemName, stockKg)")
  else
    let record : InventoryItem :=
      { itemName := jvalOptToString (getField row "itemName")
        stockKg := (jsParseFloat (getField row "stockKg")).getD 0
        minStockKg := (jsParseFloat (getField row "minStockKg")).getD 0
        unit :=
          if truthy (getField row "unit") then jvalOptToString (getField row "unit")
          else "kg"
        lastUpdated :=
          if truthy (getField row "lastUpdated") then
            newDateToISOString (jvalOptToString (getField row "lastUpdated"))
          else now }
    let ws : List String :=
      if decide (record.stockKg < record.minStockKg) then
        ["Row " ++ toString (index + 1) ++ ": " ++
          jvalOptToString (getField row "itemName") ++ " is below minimum stock"]
      else []
    Except.ok (record, ws)

/-- The `sales` arm of `parseDataByType` for one row. -/
def parseSalesRow (index : Nat) (row : Row) :
    Except String (SaleRecord × List String) :=
  if !truthy (getField row "date") || !truthy (getField row "customer")
      || !truthy (getField row "productType") then
    Except.error ("Row " ++ toString (index + 1) ++
      ": Missing required fields (date, customer, productType)")
  else
    let record : SaleRecord :=
      { date := newDateToISOString (jvalOptToString (getField row "date"))
        customer := jvalOptToString (getField row "customer")
        productType := jvalOptToString (getField row "productType")
        amount := (jsParseFloat (getField row "amount")).getD 0
        revenue := (jsParseFloat (getField row "revenue")).getD 0
        delivered := deliveredOf (getField row "delivered") }
    Except.ok (record, [])

/-- The `workers` arm of `parseDataByType` for one row. -/
def parseWorkerRow (index : Nat) (row : Row) :
    Except String (WorkerRecord × List String) :=
  if !truthy (getField row "date") || !truthy (getField row "name")
      || !truthy (getField row "shift") then
    Except.error ("Row " ++ toString (index + 1) ++
      ": Missing required fields (date, name, shift)")
  else
    let record : WorkerRecord :=
      { date := newDateToISOString (jvalOptToString (getField row "date"))
        name := jvalOptToString (getField row "name")
        shift := jvalOptToString (getField row "shift")
        tasksDone := (jsParseInt (getField row "tasksDone")).getD 0 }
    Except.ok (record, [])

/-- The `data.forEach((row, index) => ...)` accumulation skeleton shared by
the four arms: each row contributes either one record or one error, plus
zero or more warnings, in input order. -/
def runRows {α : Type} (f : Nat → Row → Except String (α × List String)) :
    Nat → List Row → ParsedData α
  | _, [] => { data := [], errors := [], warnings := [] }
  | i, row :: rest =>
    let tail := runRows f (i + 1) rest
    match f i row with
    | Except.error e =>
        { data := tail.data, errors := e :: tail.errors, warnings := tail.warnings }
    | Except.ok (r, ws) =>
        { data := r :: tail.data, errors := tail.errors, warnings := ws ++ tail.warnings }

/-- Sum type for the heterogeneous `ParsedData<any>` result of
`parseDataByType`. -/
inductive AnyRecord where
  | production (r : ProductionRecord)
  | inventory (r : InventoryItem)
  | sales (r : SaleRecord)
  | workers (r : WorkerRecord)
deriving DecidableEq

/-- `parseDataByType(data, type)`: dispatch on the target kind and run the
per-row validator/coercer over the rows in order.  `now` is the timestamp
the inventory arm reads from the clock. -/
def parseDataByType (data : List Row) (type : DataType) (now : String) :
    ParsedData AnyRecord :=
  match type with
  | DataType.production =>
      let p := runRows parseProductionRow 0 data
      { data := p.data.map AnyRecord.production, errors := p.errors, warnings := p.warnings }
  | DataType.inventory =>
      let p := runRows (parseInventoryRow now) 0 data
      { data := p.data.map AnyRecord.inventory, errors := p.errors, warnings := p.warnings }
  | DataType.sales =>
      let p := runRows parseSalesRow 0 data
      { data := p.data.map AnyRecord.sales, errors := p.errors, warnings := p.warnings }
  | DataType.workers =>
      let p := runRows parseWorkerRow 0 data
      { data := p.data.map AnyRecord.workers, errors := p.errors, warnings := p.warnings }

/-- `generateSampleCSV(type)`: the canonical sample file text per kind. -/
def generateSampleCSV : DataType → String
  | DataType.production =>
      "date,productType,quantity,target,wasteKg,orderId\n2025-10-01,Standard Shutter,180,200,7.5,\n2025-10-02,Premium Shutter,95,100,3.2,"
  | DataType.inventory =>
      "itemName,stockKg,minStockKg,unit,lastUpdated\nAluminum Sheets,1200,500,kg,2025-10-01T08:00:00Z\nPaint,150,100,L,2025-10-01T08:00:00Z"
  | DataType.sales =>
      "date,customer,productType,amount,revenue,delivered\n2025-10-01,ABC Corp,Standard Shutter,50,6000,true\n2025-10-02,XYZ Ltd,Premium Shutter,30,4500,false"
  | DataType.workers =>
      "date,name,shift,tasksDone\n2025-10-01,John Doe,morning,15\n2025-10-01,Jane Smith,afternoon,18"

/-- Split a character list at every occurrence of `sep` (structural helper
for the CSV text decoder). -/
def splitChars (sep : Char) : List Char → List (List Char)
  | [] => [[]]
  | c :: rest =>
      let r := splitChars sep rest
      if c = sep then [] :: r
      else (c :: r.headD []) :: r.tail

/-- Split a string at every occurrence of `sep`. -/
def splitOnSep (sep : Char) (s : String) : List String :=
  (splitChars sep s.toList).map (fun cs => String.mk cs)

/-- Model of the `Papa.parse(file, { header: true, skipEmptyLines: true })`
decode on newline-delimited comma-separated text (the shape
`generateSampleCSV` emits): the first line names the fields, every
non-empty later line becomes one row keyed by those names in order, every
cell a string. -/
def papaParseRows (text : String) : List Row :=
  match splitOnSep '\n' text with
  | [] => []
  | header :: rest =>
      let keys := splitOnSep ',' header
      (rest.filter (fun line => line != "")).map
        (fun line => keys.zip ((splitOnSep ',' line).map JVal.str))

/-! ## aiInsights.ts -/

/-- Severity / difficulty level (`'low' | 'medium' | 'high'` in the
source; the same three-string union types both `Anomaly.severity` and
`Recommendation.difficulty`). -/
inductive Severity where
  | low
  | medium
  | high
deriving DecidableEq

/-- An anomaly finding. -/
structure Anomaly where
  issue : String
  evidence : String
  likelyCauses : List String
  immediateAction : String
  severity : Severity
deriving DecidableEq

/-- Forecast entry kind. -/
inductive ForecastType where
  | inventory
  | production
deriving DecidableEq

/-- A forecast entry. -/
structure Forecast where
  item : String
  daysToDepletion : ℚ
  confidence : ℚ
  type : ForecastType
deriving DecidableEq

/-- A recommendation entry. -/
structure Recommendation where
  action : String
  estimatedImpact : String
  difficulty : Severity
  priority : ℚ
deriving DecidableEq

/-- The aggregate insights result. -/
structure Insights where
  anomalies : List Anomaly
  forecasts : List Forecast
  recommendations : List Recommendation
  summary : String
deriving DecidableEq

/-- Insert into a list keeping every element strictly smaller (per `lt`)
in front: the insertion step of a stable ascending sort. -/
def insertSorted {α : Type} (lt : α → α → Bool) (a : α) : List α → List α
  | [] => [a]
  | b :: t => if lt b a then b :: insertSorted lt a t else a :: b :: t

/-- Stable ascending sort by the strict comparison `lt`.  Models
JavaScript `Array.prototype.sort` with a numeric comparator, which is
specified to be a stable ascending sort. -/
def stableSortBy {α : Type} (lt : α → α → Bool) (l : List α) : List α :=
  l.foldr (insertSorted lt) []

/-- Comparison key of the production date sort
(`new Date(a.date).getTime() - new Date(b.date).getTime()`): on the
ISO-8601 date strings this program stores, chronological order of the
parsed instants coincides with lexicographic character order, which is how
the key is modelled. -/
def charListLt : List Char → List Char → Bool
  | [], [] => false
  | [], _ :: _ => true
  | _ :: _, [] => false
  | a :: as, b :: bs =>
      if a.toNat < b.toNat then true
      else if b.toNat < a.toNat then false
      else charListLt as bs

/-- `[...production].sort((a, b) => new Date(a.date).getTime() - new Date(b.date).getTime())`. -/
def sortProductionByDate (production : List ProductionRecord) : List ProductionRecord :=
  stableSortBy (fun a b => charListLt a.date.toList b.date.toList) production

/-- `sorted.slice(-7)`: the most recent seven records of the date-sorted
list. -/
def recent7 (s : List ProductionRecord) : List ProductionRecord :=
  s.drop (s.length - 7)

/-- `sorted.slice(-14, -7)`: the seven records preceding the most recent
seven (the list is only consumed under a `length ≥ 14` guard). -/
def previous7 (s : List ProductionRecord) : List ProductionRecord :=
  (s.drop (s.length - 14)).take 7

/-- Average of the `quantity` fields
(`l.reduce((sum, p) => sum + p.quantity, 0) / l.length`). -/
def avgQuantity (l : List ProductionRecord) : ℚ :=
  (l.map (fun p => p.quantity)).sum / (l.length : ℚ)

/-- The week-over-week percent change
`((recentAvg - previousAvg) / previousAvg) * 100` over the date-sorted
production list. -/
def weekChange (s : List ProductionRecord) : ℚ :=
  ((avgQuantity (recent7 s) - avgQuantity (previous7 s)) / avgQuantity (previous7 s)) * 100

/-- Waste per unit produced:
`l.reduce((s, p) => s + p.wasteKg, 0) / l.reduce((s, p) => s + p.quantity, 0)`. -/
def wasteRatio (l : List ProductionRecord) : ℚ :=
  (l.map (fun p => p.wasteKg)).sum / (l.map (fun p => p.quantity)).sum

/-- The fixed advisory cause list of the production-decrease anomaly. -/
def productionDecreaseCauses : List String :=
  ["Material shortage or supply chain issues",
   "Equipment maintenance or downtime",
   "Worker absenteeism or shift changes"]

/-- The production-decrease anomaly built from the date-sorted production
list `s`; severity `high` when the change is below -20, else `medium`. -/
def prodDecreaseAnomaly (s : List ProductionRecord) : Anomaly :=
  { issue := "Production decreased " ++ toFixed1 |weekChange s| ++ "% week-over-week"
    evidence := "Average daily output: " ++ toString (jsRound (avgQuantity (recent7 s))) ++
      " units (prev: " ++ toString (jsRound (avgQuantity (previous7 s))) ++ " units)"
    likelyCauses := productionDecreaseCauses
    immediateAction := "Review material stock levels and equipment status"
    severity := if weekChange s < -20 then Severity.high else Severity.medium }

/-- The waste-increase anomaly built from the date-sorted production list
`s`; severity always `medium`. -/
def wasteAnomaly (s : List ProductionRecord) : Anomaly :=
  { issue := "Waste levels increased significantly"
    evidence := "Current waste rate: " ++ toFixed1 (wasteRatio (recent7 s) * 100) ++
      "kg per 100 units (prev: " ++ toFixed1 (wasteRatio (previous7 s) * 100) ++ "kg)"
    likelyCauses := ["Quality control issues",
      "Raw material quality degradation",
      "Operator training needed"]
    immediateAction := "Conduct quality inspection and operator review"
    severity := Severity.medium }

/-- The low-stock anomaly for one inventory item; severity always `high`. -/
def lowStockAnomaly (item : InventoryItem) : Anomaly :=
  { issue := item.itemName ++ " stock critically low"
    evidence := "Current: " ++ jsNumToString item.stockKg ++ item.unit ++
      ", Minimum: " ++ jsNumToString item.minStockKg ++ item.unit
    likelyCauses := ["Increased consumption rate",
      "Delayed supplier delivery",
      "Inventory forecasting error"]
    immediateAction := "Reorder " ++ item.itemName ++
      " immediately - production may be affected"
    severity := Severity.high }

/-- `detectAnomalies(production, inventory, workers)`: sort production by
date; with at least 14 records, test the week-over-week quantity change
(strictly below -10) and the waste-ratio increase (recent strictly above
1.2 times previous); then one low-stock anomaly per inventory item whose
stock is strictly below its minimum, in collection order.  Workers are
accepted but drive no rule. -/
def detectAnomalies (production : List ProductionRecord)
    (inventory : List InventoryItem) (workers : List WorkerRecord) : List Anomaly :=
  let sortedProduction := sortProductionByDate production
  (if 14 ≤ sortedProduction.length then
      (if weekChange sortedProduction < -10 then [prodDecreaseAnomaly sortedProduction] else [])
      ++ (if wasteRatio (previous7 sortedProduction) * 1.2 < wasteRatio (recent7 sortedProduction)
          then [wasteAnomaly sortedProduction] else [])
    else [])
  ++ inventory.filterMap (fun item =>
      if item.stockKg < item.minStockKg then some (lowStockAnomaly item) else none)

/-- `item.minStockKg * 0.05`: the 5%-of-minimum daily-consumption
heuristic of the forecast generator. -/
def avgDailyConsumption (item : InventoryItem) : ℚ :=
  item.minStockKg * 0.05

/-- `item.stockKg / Math.max(avgDailyConsumption, 0.1)`: estimated days to
depletion with the 0.1 units/day floor on the divisor. -/
def daysToDepletion (item : InventoryItem) : ℚ :=
  item.stockKg / max (avgDailyConsumption item) 0.1

/-- The inventory pass of `generateForecasts`: for every item with positive
stock whose estimated depletion is under 30 days, one forecast with the
rounded day count and confidence 0.75, in collection order. -/
def inventoryForecasts (inventory : List InventoryItem) : List Forecast :=
  inventory.filterMap (fun item =>
    if 0 < item.stockKg then
      if daysToDepletion item < 30 then
        some { item := item.itemName
               daysToDepletion := (jsRound (daysToDepletion item) : ℚ)
               confidence := 0.75
               type := ForecastType.inventory }
      else none
    else none)

/-- The least-squares slope computation of the production-trend pass:
y-mean over the list, x-mean fixed at 3, slope
`Σ (x - 3)(y - yMean) / Σ (x - 3)²` guarded by a zero denominator check. -/
def slopeOf (quantities : List ℚ) : ℚ :=
  let yMean := quantities.sum / (quantities.length : ℚ)
  let numerator := (quantities.enum.map (fun xy => ((xy.1 : ℚ) - 3) * (xy.2 - yMean))).sum
  let denominator := (quantities.enum.map (fun xy => ((xy.1 : ℚ) - 3) ^ 2)).sum
  if denominator ≠ 0 then numerator / denominator else 0

/-- The slope of `production.slice(-7)` quantities in CURRENT array order
(the source applies no date sort before this slice). -/
def trendSlope (production : List ProductionRecord) : ℚ :=
  slopeOf ((production.drop (production.length - 7)).map (fun p => p.quantity))

/-- The fixed production-trend forecast entry. -/
def trendForecastEntry : Forecast :=
  { item := "Production Trend"
    daysToDepletion := 0
    confidence := 0.65
    type := ForecastType.production }

/-- `generateForecasts(production, inventory)`: all qualifying inventory
forecasts first, then the production-trend entry when at least 7 production
records exist and the slope classifies as non-stable (`< -5` declining,
`> 5` increasing). -/
def generateForecasts (production : List ProductionRecord)
    (inventory : List InventoryItem) : List Forecast :=
  inventoryForecasts inventory ++
  (if 7 ≤ production.length then
      let slope := trendSlope production
      let trend : String :=
        if slope < -5 then "declining" else if 5 < slope then "increasing" else "stable"
      if trend ≠ "stable" then [trendForecastEntry] else []
    else [])

/-- The fallback recommendation emitted when no anomaly and no forecast
exist. -/
def healthyRecommendation : Recommendation :=
  { action := "Continue current operations - all metrics healthy"
    estimatedImpact := "Maintain efficiency and quality standards"
    difficulty := Severity.low
    priority := 3 }

/-- `generateRecommendations(anomalies, forecasts)`: one priority-1
recommendation per high-severity anomaly, one priority-2 recommendation per
inventory forecast under 14 days, the priority-3 fallback exactly when both
inputs are empty; finally a stable ascending sort by priority. -/
def generateRecommendations (anomalies : List Anomaly)
    (forecasts : List Forecast) : List Recommendation :=
  let recs : List Recommendation :=
    (anomalies.filterMap (fun a =>
      if a.severity = Severity.high then
        some { action := a.immediateAction
               estimatedImpact := "Critical - prevent production stoppage"
               difficulty := Severity.low
               priority := 1 }
      else none))
    ++ (forecasts.filterMap (fun f =>
      if f.type = ForecastType.inventory ∧ f.daysToDepletion < 14 then
        some { action := "Order " ++ f.item ++ " within next 3 days"
               estimatedImpact := "Maintain " ++ toString (jsRound f.daysToDepletion) ++
                 " days buffer stock"
               difficulty := Severity.low
               priority := 2 }
      else none))
    ++ (if anomalies.length = 0 ∧ forecasts.length = 0 then [healthyRecommendation] else [])
  stableSortBy (fun a b => decide (a.priority < b.priority)) recs

/-- `generateInsights(production, inventory, sales, workers)`: run the
three generators and compose the summary sentence. -/
def generateInsights (production : List ProductionRecord)
    (inventory : List InventoryItem) (sales : List SaleRecord)
    (workers : List WorkerRecord) : Insights :=
  let anomalies := detectAnomalies production inventory workers
  let forecasts := generateForecasts production inventory
  let recommendations := generateRecommendations anomalies forecasts
  let summary1 : String :=
    if anomalies.length = 0 then
      "Factory operations overview: " ++ "All systems operating normally. "
    else
      "Factory operations overview: " ++ toString anomalies.length ++ " issue" ++
        (if 1 < anomalies.length then "s" else "") ++ " detected requiring attention. "
  let summary2 : String :=
    if 0 < forecasts.length then
      summary1 ++ toString forecasts.length ++ " forecast alert" ++
        (if 1 < forecasts.length then "s" else "") ++ " for inventory management. "
    else summary1
  { anomalies := anomalies
    forecasts := forecasts
    recommendations := recommendations
    summary := summary2 }

/-- Definition following the specification text for the production-trend
fit: the ordinary-least-squares slope of the seven quantities against their
indices 0..6 with the x-mean fixed at 3, i.e.
`Σ (x - 3)(y - ȳ) / 28` where `ȳ` is the mean of the seven values and
`28 = Σ (x - 3)²` over `x = 0..6`. -/
def olsSlope7 (ys : List ℚ) : ℚ :=
  ((ys.enum.map (fun xy => ((xy.1 : ℚ) - 3) * (xy.2 - ys.sum / 7))).sum) / 28

deriving instance DecidableEq for Except

/-- A production row whose `quantity` is present but not parseable as a
number ("abc"): truthy, so it passes the required-field check. -/
def prodRowUnparseableQty : Row :=
  [("date", JVal.str "2025-10-01"), ("productType", JVal.str "Standard Shutter"),
   ("quantity", JVal.str "abc")]

/-- The record the parser produces for `prodRowUnparseableQty`: accepted,
with quantity defaulted to 0. -/
def prodRecUnparseableQty : ProductionRecord :=
  { date := "2025-10-01", productType := "Standard Shutter",
    quantity := 0, target := 0, wasteKg := 0, orderId := none }

/-- A sales row whose `delivered` cell is the string "TRUE" (not the exact
lowercase literal). -/
def salesRowDeliveredTRUE : Row :=
  [("date", JVal.str "2025-10-01"), ("customer", JVal.str "ABC Corp"),
   ("productType", JVal.str "Standard Shutter"), ("delivered", JVal.str "TRUE")]

/-- The record the parser produces for `salesRowDeliveredTRUE`. -/
def salesRecDeliveredTRUE : SaleRecord :=
  { date := "2025-10-01", customer := "ABC Corp", productType := "Standard Shutter",
    amount := 0, revenue := 0, delivered := false }

/-- A production record with the given date and quantity (other fields
fixed), for concrete test data. -/
def mkProd (d : String) (q : ℚ) : ProductionRecord :=
  { date := d, productType := "Standard Shutter", quantity := q,
    target := 0, wasteKg := 0, orderId := none }

/-- Fourteen production records: previous week at 100 units/day, recent
week at 80 units/day (a 20% decrease). -/
def prodWeek14 : List ProductionRecord :=
  [mkProd "2025-09-01" 100, mkProd "2025-09-02" 100, mkProd "2025-09-03" 100,
   mkProd "2025-09-04" 100, mkProd "2025-09-05" 100, mkProd "2025-09-06" 100,
   mkProd "2025-09-07" 100, mkProd "2025-09-08" 80, mkProd "2025-09-09" 80,
   mkProd "2025-09-10" 80, mkProd "2025-09-11" 80, mkProd "2025-09-12" 80,
   mkProd "2025-09-13" 80, mkProd "2025-09-14" 80]

theorem insertSorted_length {α : Type} (lt : α → α → Bool) (a : α) (l : List α) :
    (insertSorted lt a l).length = l.length + 1 := by
  induction l with
  | nil => rfl
  | cons b t ih => simp only [insertSorted]; split <;> simp [ih]

theorem stableSortBy_length {α : Type} (lt : α → α → Bool) (l : List α) :
    (stableSortBy lt l).length = l.length := by
  induction l with
  | nil => rfl
  | cons a t ih =>
      simp only [stableSortBy, List.foldr] at ih ⊢
      rw [insertSorted_length, ih, List.length_cons]

theorem insertSorted_mem {α : Type} (lt : α → α → Bool) (a x : α) (l : List α) :
    x ∈ insertSorted lt a l ↔ x = a ∨ x ∈ l := by
  induction l with
  | nil => simp [insertSorted]
  | cons b t ih =>
      simp only [insertSorted]
      split
      · simp only [List.mem_cons, ih]; tauto
      · simp only [List.mem_cons]

theorem stableSortBy_mem {α : Type} (lt : α → α → Bool) (x : α) (l : List α) :
    x ∈ stableSortBy lt l ↔ x ∈ l := by
  induction l with
  | nil => simp [stableSortBy]
  | cons a t ih =>
      simp only [stableSortBy, List.foldr] at ih ⊢
      rw [insertSorted_mem]
      simp [ih]

theorem runRows_count {α : Type} (f : Nat → Row → Except String (α × List String)) :
    ∀ (rows : List Row) (i : Nat),
      (runRows f i rows).data.length + (runRows f i rows).errors.length = rows.length := by
  intro rows
  induction rows with
  | nil => intro i; rfl
  | cons r t ih =>
      intro i
      simp only [runRows]
      cases hf : f i r with
      | error e => simp only [hf]; have := ih (i + 1); simp; omega
      | ok p => simp only [hf]; have := ih (i + 1); simp; omega

/-- C9: for every target kind and row list, each row contributes exactly one
record or exactly one error, so the record count plus the error count equals
the input row count (warnings affect neither). -/
theorem c9_row_count_partition (rows : List Row) (type : DataType) (now : String) :
    (parseDataByType rows type now).data.length
      + (parseDataByType rows type now).errors.length = rows.length := by
  cases type <;> simp [parseDataByType, runRows_count]

/-- C10: required-field presence is JavaScript truthiness of the raw value:
a production row whose quantity is the number 0 or the empty string is
rejected as missing, an inventory row whose stockKg is the number 0 is
rejected, while the string "0" is accepted (coerced to stock 0). -/
theorem c10_truthiness_required_fields :
    parseProductionRow 0 [("date", JVal.str "2025-10-01"),
        ("productType", JVal.str "Standard Shutter"), ("quantity", JVal.num 0)]
      = Except.error "Row 1: Missing required fields (date, productType, quantity)"
    ∧ parseProductionRow 0 [("date", JVal.str "2025-10-01"),
        ("productType", JVal.str "Standard Shutter"), ("quantity", JVal.str "")]
      = Except.error "Row 1: Missing required fields (date, productType, quantity)"
    ∧ parseInventoryRow "2025-10-03T00:00:00Z" 0
        [("itemName", JVal.str "Steel"), ("stockKg", JVal.num 0)]
      = Except.error "Row 1: Missing required fields (itemName, stockKg)"
    ∧ parseInventoryRow "2025-10-03T00:00:00Z" 0
        [("itemName", JVal.str "Steel"), ("stockKg", JVal.str "0")]
      = Except.ok (InventoryItem.mk "Steel" 0 0 "kg" "2025-10-03T00:00:00Z", []) := by
  refine ⟨by decide, by decide, by decide, by decide⟩

/-- C1 (counterexample): a production row whose quantity is present but
unparseable ("abc") is NOT rejected — it contributes a record (with
quantity defaulted to 0) and no error — contradicting the claim that such
a row is rejected. -/
theorem c1_counterexample_unparseable_quantity_accepted :
    (parseDataByType [prodRowUnparseableQty] DataType.production "2025-10-03T00:00:00Z").errors = []
    ∧ (parseDataByType [prodRowUnparseableQty] DataType.production "2025-10-03T00:00:00Z").data
        = [AnyRecord.production prodRecUnparseableQty] := by
  exact ⟨by decide, by decide⟩

/-- C1 (amended): a production row is rejected — contributing no record and
exactly the error "Row n: Missing required fields (date, productType,
quantity)" with n its 1-indexed position — exactly when `date`,
`productType` or `quantity` is JavaScript-falsy (absent, empty string,
number 0, or false); an accepted row's quantity is the parsed value
defaulting to 0 when unparseable. -/
theorem c1_production_rejection_is_truthiness :
    (∀ (i : Nat) (row : Row),
      parseProductionRow i row
          = Except.error ("Row " ++ toString (i + 1) ++
              ": Missing required fields (date, productType, quantity)")
        ↔ (truthy (getField row "date") = false
            ∨ truthy (getField row "productType") = false
            ∨ truthy (getField row "quantity") = false))
    ∧ (∀ (i : Nat) (row : Row) (r : ProductionRecord) (ws : List String),
        parseProductionRow i row = Except.ok (r, ws) →
        r.quantity = (jsParseFloat (getField row "quantity")).getD 0) := by
  constructor
  · intro i row
    simp only [parseProductionRow]
    split
    · rename_i h
      simp only [Bool.or_eq_true, Bool.not_eq_true'] at h
      simpa using or_assoc.mp h
    · rename_i h
      simp only [Bool.or_eq_true, Bool.not_eq_true'] at h
      push_neg at h
      constructor
      · intro hcontra; exact absurd hcontra (by simp)
      · intro hcontra
        rcases hcontra with h1 | h1 | h1 <;> simp [h1] at h
  · intro i row r ws h
    simp only [parseProductionRow] at h
    split at h
    · exact absurd h (by simp)
    · rw [Except.ok.injEq, Prod.mk.injEq] at h
      rw [← h.1]

/-- C1 (witness): the amended acceptance clause at the concrete unparseable
row. -/
theorem c1_production_rejection_is_truthiness_witness :
    parseProductionRow 0 prodRowUnparseableQty = Except.ok (prodRecUnparseableQty, [])
    ∧ prodRecUnparseableQty.quantity
        = (jsParseFloat (getField prodRowUnparseableQty "quantity")).getD 0 :=
  ⟨by decide,
    c1_production_rejection_is_truthiness.2 0 prodRowUnparseableQty
      prodRecUnparseableQty [] (by decide)⟩

/-- C8: for every accepted sales row, `delivered` is exactly the strict
comparison `row.delivered === 'true' || row.delivered === true`: true iff
the raw value is the string "true" or the boolean true, and false for
"TRUE", "True", "1" and for an absent value. -/
theorem c8_delivered_strict_true_only :
    (∀ (i : Nat) (row : Row) (r : SaleRecord) (ws : List String),
        parseSalesRow i row = Except.ok (r, ws) →
        r.delivered = deliveredOf (getField row "delivered"))
    ∧ (∀ v : Option JVal,
        deliveredOf v = true ↔ (v = some (JVal.str "true") ∨ v = some (JVal.boolean true)))
    ∧ deliveredOf (some (JVal.str "TRUE")) = false
    ∧ deliveredOf (some (JVal.str "True")) = false
    ∧ deliveredOf (some (JVal.str "1")) = false
    ∧ deliveredOf none = false := by
  refine ⟨?_, ?_, by decide, by decide, by decide, by decide⟩
  · intro i row r ws h
    simp only [parseSalesRow] at h
    split at h
    · exact absurd h (by simp)
    · rw [Except.ok.injEq, Prod.mk.injEq] at h
      rw [← h.1]
  · intro v
    simp [deliveredOf]

/-- C8 (witness): the delivered-field clause at a concrete accepted row. -/
theorem c8_delivered_strict_true_only_witness :
    parseSalesRow 0 salesRowDeliveredTRUE = Except.ok (salesRecDeliveredTRUE, [])
    ∧ salesRecDeliveredTRUE.delivered = deliveredOf (getField salesRowDeliveredTRUE "delivered") :=
  ⟨by decide,
    c8_delivered_strict_true_only.1 0 salesRowDeliveredTRUE salesRecDeliveredTRUE [] (by decide)⟩

/-- C5: for each of the four data kinds, the sample CSV text piped back
through the decode step and the row parser for the same kind yields zero
errors and exactly two records (the two example data lines of every
template). -/
theorem c5_sample_csv_roundtrip (t : DataType) :
    (parseDataByType (papaParseRows (generateSampleCSV t)) t "2025-10-03T00:00:00Z").errors = []
    ∧ (parseDataByType (papaParseRows (generateSampleCSV t)) t "2025-10-03T00:00:00Z").data.length = 2 := by
  cases t <;> exact ⟨by decide, by decide⟩

/-- C3: the inventory depletion estimate divides stock by
`max(minStockKg * 0.05, 0.1)` for every item with positive stock — a
divisor at least 0.1, never zero — and an item with `minStockKg = 0` and
`stockKg = 5` gets `daysToDepletion = 50` (5 divided by the 0.1 floor). -/
theorem c3_depletion_floor :
    daysToDepletion (InventoryItem.mk "Filler" 5 0 "kg" "2025-10-01T08:00:00Z") = 50
    ∧ (∀ item : InventoryItem, 0 < item.stockKg →
        daysToDepletion item = item.stockKg / max (item.minStockKg * 0.05) 0.1
        ∧ 0 < max (avgDailyConsumption item) (0.1 : ℚ)) := by
  constructor
  · norm_num [daysToDepletion, avgDailyConsumption]
  · intro item hstock
    refine ⟨rfl, ?_⟩
    have hfloor : (0.1 : ℚ) ≤ max (avgDailyConsumption item) 0.1 := le_max_right _ _
    have : (0 : ℚ) < 0.1 := by norm_num
    linarith

/-- C3 (witness): the positive-stock clause at the spec's concrete Paint
item. -/
theorem c3_depletion_floor_witness :
    0 < (InventoryItem.mk "Paint" 40 100 "L" "2025-10-01T08:00:00Z").stockKg
    ∧ (daysToDepletion (InventoryItem.mk "Paint" 40 100 "L" "2025-10-01T08:00:00Z")
        = (InventoryItem.mk "Paint" 40 100 "L" "2025-10-01T08:00:00Z").stockKg
          / max ((InventoryItem.mk "Paint" 40 100 "L" "2025-10-01T08:00:00Z").minStockKg * 0.05) 0.1
       ∧ 0 < max (avgDailyConsumption (InventoryItem.mk "Paint" 40 100 "L" "2025-10-01T08:00:00Z")) (0.1 : ℚ)) :=
  ⟨by decide, c3_depletion_floor.2 (InventoryItem.mk "Paint" 40 100 "L" "2025-10-01T08:00:00Z") (by decide)⟩

/-- C7: the anomaly list is always the at-most-one production-decrease
anomaly, then the at-most-one waste anomaly (emitted iff the recent waste
ratio strictly exceeds 1.2 times the previous one, severity always medium),
then one high-severity low-stock anomaly per inventory item with
`stockKg < minStockKg`, in collection iteration order. -/
theorem c7_anomaly_emission_order (production : List ProductionRecord)
    (inventory : List InventoryItem) (workers : List WorkerRecord) :
    (detectAnomalies production inventory workers
      = (if 14 ≤ (sortProductionByDate production).length
            ∧ weekChange (sortProductionByDate production) < -10
         then [prodDecreaseAnomaly (sortProductionByDate production)] else [])
        ++ (if 14 ≤ (sortProductionByDate production).length
              ∧ wasteRatio (previous7 (sortProductionByDate production)) * 1.2
                  < wasteRatio (recent7 (sortProductionByDate production))
            then [wasteAnomaly (sortProductionByDate production)] else [])
        ++ inventory.filterMap (fun item =>
            if item.stockKg < item.minStockKg then some (lowStockAnomaly item) else none))
    ∧ (wasteAnomaly (sortProductionByDate production)).severity = Severity.medium
    ∧ (∀ item : InventoryItem, (lowStockAnomaly item).severity = Severity.high) := by
  refine ⟨?_, rfl, fun item => rfl⟩
  simp only [detectAnomalies]
  by_cases h14 : 14 ≤ (sortProductionByDate production).length
  · simp [h14, List.append_assoc]
  · simp [h14]

theorem wasteAnomaly_causes_ne (s : List ProductionRecord) :
    (wasteAnomaly s).likelyCauses ≠ productionDecreaseCauses := by
  intro hq
  have h2 : (["Quality control issues", "Raw material quality degradation",
      "Operator training needed"] : List String) = productionDecreaseCauses := hq
  exact absurd h2 (by decide)

theorem lowStockAnomaly_causes_ne (item : InventoryItem) :
    (lowStockAnomaly item).likelyCauses ≠ productionDecreaseCauses := by
  intro hq
  have h2 : (["Increased consumption rate", "Delayed supplier delivery",
      "Inventory forecasting error"] : List String) = productionDecreaseCauses := hq
  exact absurd h2 (by decide)

/-- C2: with exactly 14 production records, the production-decrease anomaly
fires iff the week-over-week percent change over the date-sorted last 7
versus the preceding 7 is strictly below -10 (so an exact 10% decrease does
not fire); when it fires it is the first anomaly, and its severity is high
iff the change is strictly below -20, else medium. -/
theorem c2_production_decrease_threshold (production : List ProductionRecord)
    (inventory : List InventoryItem) (workers : List WorkerRecord)
    (h : production.length = 14) :
    ((∃ a ∈ detectAnomalies production inventory workers,
        a.likelyCauses = productionDecreaseCauses)
      ↔ weekChange (sortProductionByDate production) < -10)
    ∧ (weekChange (sortProductionByDate production) < -10 →
        (detectAnomalies production inventory workers).head?
          = some (prodDecreaseAnomaly (sortProductionByDate production)))
    ∧ (prodDecreaseAnomaly (sortProductionByDate production)).severity
        = (if weekChange (sortProductionByDate production) < -20
           then Severity.high else Severity.medium) := by
  have h14 : 14 ≤ (sortProductionByDate production).length := by
    rw [sortProductionByDate, stableSortBy_length, h]
  refine ⟨?_, ?_, rfl⟩
  · by_cases hc : weekChange (sortProductionByDate production) < -10
    · refine iff_of_true ?_ hc
      refine ⟨prodDecreaseAnomaly (sortProductionByDate production), ?_, rfl⟩
      simp only [detectAnomalies]
      rw [if_pos h14, if_pos hc]
      simp
    · refine iff_of_false ?_ hc
      rintro ⟨a, ha, hpc⟩
      simp only [detectAnomalies] at ha
      rw [if_pos h14, if_neg hc] at ha
      simp only [List.nil_append, List.mem_append, List.mem_filterMap] at ha
      rcases ha with ha | ⟨item, hmem, hitem⟩
      · split at ha
        · simp only [List.mem_singleton] at ha
          subst ha
          exact absurd hpc (wasteAnomaly_causes_ne _)
        · simp at ha
      · split at hitem
        · simp only [Option.some.injEq] at hitem
          subst hitem
          exact absurd hpc (lowStockAnomaly_causes_ne _)
        · simp at hitem
  · intro hc
    simp only [detectAnomalies]
    rw [if_pos h14, if_pos hc]
    rfl

/-- C2 (witness): the threshold characterisation at fourteen concrete
records. -/
theorem c2_production_decrease_threshold_witness :
    prodWeek14.length = 14
    ∧ (((∃ a ∈ detectAnomalies prodWeek14 [] [],
            a.likelyCauses = productionDecreaseCauses)
          ↔ weekChange (sortProductionByDate prodWeek14) < -10)
        ∧ (weekChange (sortProductionByDate prodWeek14) < -10 →
            (detectAnomalies prodWeek14 [] []).head?
              = some (prodDecreaseAnomaly (sortProductionByDate prodWeek14)))
        ∧ (prodDecreaseAnomaly (sortProductionByDate prodWeek14)).severity
            = (if weekChange (sortProductionByDate prodWeek14) < -20
               then Severity.high else Severity.medium)) :=
  ⟨by decide, c2_production_decrease_threshold prodWeek14 [] [] (by decide)⟩

/-- C4: on four empty collections `generateInsights` returns exactly the
"all metrics healthy" fallback recommendation and the all-normal summary
text; and in general the fallback appears in `generateRecommendations`
exactly when both the anomaly list and the forecast list are empty. -/
theorem c4_healthy_fallback :
    (generateInsights [] [] [] []).recommendations = [healthyRecommendation]
    ∧ (generateInsights [] [] [] []).summary
        = "Factory operations overview: All systems operating normally. "
    ∧ (∀ (anomalies : List Anomaly) (forecasts : List Forecast),
        healthyRecommendation ∈ generateRecommendations anomalies forecasts
          ↔ (anomalies = [] ∧ forecasts = [])) := by
  refine ⟨by decide, by decide, ?_⟩
  intro anomalies forecasts
  simp only [generateRecommendations]
  rw [stableSortBy_mem]
  simp only [List.mem_append, List.mem_filterMap]
  constructor
  · rintro ((⟨a, hmem, hfa⟩ | ⟨f, hmem, hff⟩) | hfb)
    · split at hfa
      · simp only [Option.some.injEq] at hfa
        have hp : (1 : ℚ) = 3 := congrArg Recommendation.priority hfa
        exact absurd hp (by decide)
      · simp at hfa
    · split at hff
      · simp only [Option.some.injEq] at hff
        have hp : (2 : ℚ) = 3 := congrArg Recommendation.priority hff
        exact absurd hp (by decide)
      · simp at hff
    · split at hfb
      · rename_i hcond
        simp only [List.length_eq_zero] at hcond
        exact hcond
      · simp at hfb
  · rintro ⟨rfl, rfl⟩
    simp

/-- C6: the forecast list is always the inventory forecasts followed by the
single fixed production-trend entry, present iff at least 7 production
records exist and the slope over the last 7 records in current array order
(no date sort) is strictly outside [-5, 5]; and on any seven quantities the
source's guarded slope computation equals the ordinary-least-squares slope
against indices 0..6 with x-mean 3 and denominator 28. -/
theorem c6_production_trend_forecast :
    (∀ (production : List ProductionRecord) (inventory : List InventoryItem),
        generateForecasts production inventory
          = inventoryForecasts inventory
            ++ (if 7 ≤ production.length
                  ∧ (trendSlope production < -5 ∨ 5 < trendSlope production)
               then [trendForecastEntry] else []))
    ∧ (∀ ys : List ℚ, ys.length = 7 → slopeOf ys = olsSlope7 ys) := by
  constructor
  · intro production inventory
    simp only [generateForecasts]
    congr 1
    by_cases h7 : 7 ≤ production.length
    · simp only [h7, if_true, true_and]
      by_cases hneg : trendSlope production < -5
      · rw [if_pos hneg]
        simp [hneg]
      · rw [if_neg hneg]
        by_cases hpos : 5 < trendSlope production
        · rw [if_pos hpos]
          simp [hneg, hpos]
        · rw [if_neg hpos]
          simp [hneg, hpos]
    · simp [h7]
  · intro ys hlen
    match ys, hlen with
    | [a, b, c, d, e, f, g], _ =>
      simp only [slopeOf, olsSlope7, List.enum, List.enumFrom, List.map,
        List.sum_cons, List.sum_nil, List.length_cons, List.length_nil]
      norm_num

/-- C6 (witness): the least-squares characterisation at seven concrete
quantities. -/
theorem c6_production_trend_forecast_witness :
    ([100, 90, 80, 70, 60, 50, 40] : List ℚ).length = 7
    ∧ slopeOf [100, 90, 80, 70, 60, 50, 40]
        = olsSlope7 [100, 90, 80, 70, 60, 50, 40] :=
  ⟨by decide, c6_production_trend_forecast.2 [100, 90, 80, 70, 60, 50, 40] (by decide)⟩

/-- C5 (witness): the round trip at the production kind. -/
theorem c5_sample_csv_roundtrip_witness :
    (parseDataByType (papaParseRows (generateSampleCSV DataType.production))
        DataType.production "2025-10-03T00:00:00Z").errors = []
    ∧ (parseDataByType (papaParseRows (generateSampleCSV DataType.production))
        DataType.production "2025-10-03T00:00:00Z").data.length = 2 :=
  c5_sample_csv_roundtrip DataType.production
